import Mathlib

/-!
Verification of the Kubernetes pod service-discovery component of the
go.d.plugin agent (`agent/discovery/sd/discoverer/kubernetes`), against its
natural-language specification.

The repository snapshot contains the package's test file
(`pod_test.go`) but not `pod.go` itself, so the discoverer's functions
(`podSource`, `podTUIDWithPort`, environment resolution, target/group
building, `NewPod`) are modelled from the spec, constrained by the
concrete expectations the test file pins down (source strings, TUID
strings, group contents, hash (re)computation points).
-/

set_option maxRecDepth 4000

namespace PodSD

/-- A declared container port (`corev1.ContainerPort`): name, protocol
(`"TCP"`, `"UDP"`, `"SCTP"`), and port number. -/
structure ContainerPort where
  name : String
  protocol : String
  containerPort : Nat
deriving DecidableEq, Repr

/-- The source of a literal `Env` entry: a direct value, a secret key
reference, or a config-map key reference (`corev1.EnvVarSource`). -/
inductive EnvVarSrc where
  | value (v : String)
  | secretKeyRef (secretName key : String)
  | configMapKeyRef (cmapName key : String)
deriving DecidableEq, Repr

/-- A literal `Env` entry (`corev1.EnvVar`). -/
structure EnvVar where
  name : String
  src : EnvVarSrc
deriving DecidableEq, Repr

/-- An `EnvFrom` whole-object import (`corev1.EnvFromSource`). -/
inductive EnvFromSource where
  | configMapRef (name : String)
  | secretRef (name : String)
deriving DecidableEq, Repr

/-- A container spec (the fields the discoverer reads). -/
structure Container where
  name : String
  image : String
  ports : List ContainerPort
  env : List EnvVar
  envFrom : List EnvFromSource
deriving DecidableEq, Repr

/-- An owner reference (`metav1.OwnerReference`): name, kind, and the
"is controller" flag. -/
structure OwnerReference where
  name : String
  kind : String
  controller : Bool
deriving DecidableEq, Repr

/-- A pod (the fields the discoverer reads). `nsName` is the pod's
namespace. Annotations and labels are string maps, modelled as
association lists with unique keys. -/
structure Pod where
  name : String
  nsName : String
  annotations : List (String × String)
  labels : List (String × String)
  ownerReferences : List OwnerReference
  nodeName : String
  containers : List Container
  podIP : String
deriving DecidableEq, Repr

/-- A config map: namespace, name, and string data. -/
structure ConfigMap where
  nsName : String
  name : String
  data : List (String × String)
deriving DecidableEq, Repr

/-- A secret: namespace, name, and data (values already decoded to text,
as the resolver does). -/
structure Secret where
  nsName : String
  name : String
  data : List (String × String)
deriving DecidableEq, Repr

/-- Modelled from the spec: the group source key (missing `pod.go`,
`podSource`). The spec §3 says the key is built from namespace and name;
the exact format is pinned by the repository test `TestPodGroup_Source`,
which expects `"sd:k8s:pod(default/httpd-dd95c4d68-5bkwl)"` for pod
`default/httpd-dd95c4d68-5bkwl`. -/
def podSource (pod : Pod) : String :=
  "sd:k8s:pod(" ++ pod.nsName ++ "/" ++ pod.name ++ ")"

/-- ASCII lower-casing of one character (`strings.ToLower` on the
protocol strings, which are ASCII). -/
def lowerChar (c : Char) : Char :=
  if 65 ≤ c.toNat && c.toNat ≤ 90 then Char.ofNat (c.toNat + 32) else c

/-- ASCII lower-casing of a string. -/
def lowerString (s : String) : String := ⟨s.data.map lowerChar⟩

/-- Modelled from the spec: the target TUID (missing `pod.go`,
`podTUIDWithPort`): `{namespace}_{podName}_{containerName}_{protocol}_{port}`.
The repository test `TestPodTarget_TUID` expects
`"default_httpd-dd95c4d68-5bkwl_httpd_tcp_80"` for a port whose declared
protocol is `"TCP"`, so the protocol component is lower-cased. -/
def podTUIDWithPort (pod : Pod) (c : Container) (p : ContainerPort) : String :=
  pod.nsName ++ "_" ++ pod.name ++ "_" ++ c.name ++ "_" ++
    lowerString p.protocol ++ "_" ++ toString p.containerPort

/-- The httpd pod of the test corpus (`newHTTPDPod` in `pod_test.go`). -/
def httpdPod : Pod :=
  { name := "httpd-dd95c4d68-5bkwl"
    nsName := "default"
    annotations := [("phase", "prod")]
    labels := [("app", "httpd"), ("tier", "frontend")]
    ownerReferences := [⟨"netdata-test", "DaemonSet", true⟩]
    nodeName := "m01"
    containers :=
      [{ name := "httpd", image := "httpd"
         ports := [⟨"http", "TCP", 80⟩, ⟨"https", "TCP", 443⟩]
         env := [], envFrom := [] }]
    podIP := "172.17.0.1" }

/-- The nginx pod of the test corpus (`newNGINXPod` in `pod_test.go`). -/
def nginxPod : Pod :=
  { name := "nginx-7cfd77469b-q6kxj"
    nsName := "default"
    annotations := [("phase", "prod")]
    labels := [("app", "nginx"), ("tier", "frontend")]
    ownerReferences := [⟨"netdata-test", "DaemonSet", true⟩]
    nodeName := "m01"
    containers :=
      [{ name := "nginx", image := "nginx"
         ports := [⟨"http", "TCP", 80⟩, ⟨"https", "TCP", 443⟩]
         env := [], envFrom := [] }]
    podIP := "172.17.0.2" }

/-- Update one key in a string map modelled as an association list with
unique keys (Go `m[k] = v`): replace the first binding of `k`, or append
a new binding. -/
def setKey : List (String × String) → String → String → List (String × String)
  | [], k, v => [(k, v)]
  | (a, b) :: t, k, v => if a = k then (k, v) :: t else (a, b) :: setKey t k v

/-- Point lookup in the config-map cache by namespace and name
(the cache adapter's `GetByKey`). -/
def lookupConfigMap (cms : List ConfigMap) (ns name : String) : Option ConfigMap :=
  cms.find? (fun cm => cm.nsName = ns && cm.name = name)

/-- Point lookup in the secret cache by namespace and name. -/
def lookupSecret (secrets : List Secret) (ns name : String) : Option Secret :=
  secrets.find? (fun s => s.nsName = ns && s.name = name)

/-- Merge all key/value pairs of an object's data into the map
(an `EnvFrom` whole-object import). -/
def mergeData (m : List (String × String)) (data : List (String × String)) :
    List (String × String) :=
  data.foldl (fun m kv => setKey m kv.1 kv.2) m

/-- One `EnvFrom` step of the resolver: import a whole config map or
secret; a missing referenced object contributes nothing. -/
def applyEnvFrom (cms : List ConfigMap) (secrets : List Secret) (ns : String)
    (m : List (String × String)) : EnvFromSource → List (String × String)
  | .configMapRef n =>
    match lookupConfigMap cms ns n with
    | some cm => mergeData m cm.data
    | none => m
  | .secretRef n =>
    match lookupSecret secrets ns n with
    | some s => mergeData m s.data
    | none => m

/-- One literal `Env` step of the resolver: a direct value is set; a
secret/config-map key reference is looked up, and a missing object or
key leaves the map unchanged (the previous value, if any, survives). -/
def applyEnvVar (cms : List ConfigMap) (secrets : List Secret) (ns : String)
    (m : List (String × String)) (e : EnvVar) : List (String × String) :=
  match e.src with
  | .value v => setKey m e.name v
  | .secretKeyRef sname key =>
    match lookupSecret secrets ns sname with
    | some s =>
      match s.data.lookup key with
      | some v => setKey m e.name v
      | none => m
    | none => m
  | .configMapKeyRef cname key =>
    match lookupConfigMap cms ns cname with
    | some cm =>
      match cm.data.lookup key with
      | some v => setKey m e.name v
      | none => m
    | none => m

/-- Modelled from the spec (missing `pod.go` environment resolver):
flatten a container's environment by processing every `EnvFrom` import
first and every literal `Env` entry second, in declaration order, each
step overriding same-named keys from prior steps; unresolved references
are silently dropped, so resolution is total and never fails. -/
def resolveEnv (cms : List ConfigMap) (secrets : List Secret) (ns : String)
    (c : Container) : List (String × String) :=
  c.env.foldl (applyEnvVar cms secrets ns)
    (c.envFrom.foldl (applyEnvFrom cms secrets ns) [])

/-- Modelled from the spec: scan the pod's owner references for the
first entry whose controller flag is true; `("", "")` if none. -/
def findController (refs : List OwnerReference) : String × String :=
  match refs.find? (·.controller) with
  | some r => (r.name, r.kind)
  | none => ("", "")

/-- Go's `net.JoinHostPort`: a host containing a colon is assumed to be
an IPv6 literal and is bracketed. -/
def joinHostPort (host port : String) : String :=
  if host.data.contains ':' then "[" ++ host ++ "]:" ++ port
  else host ++ ":" ++ port

/-- One scrape target derived from one pod+container+port
(`PodTarget`). `tags` is the generic capability-tag set of the embedded
`model.Base`; `hash` is the stored 64-bit content hash. -/
structure PodTarget where
  tags : List String
  hash : Nat
  tuid : String
  Address : String
  Namespace : String
  Name : String
  Annotations : List (String × String)
  Labels : List (String × String)
  NodeName : String
  PodIP : String
  ControllerName : String
  ControllerKind : String
  ContName : String
  Image : String
  Env : Option (List (String × String))
  Port : String
  PortName : String
  PortProtocol : String
deriving DecidableEq, Repr

/-- 64-bit FNV-1a step on one byte-sized value. -/
def fnvStep (h b : Nat) : Nat := ((h ^^^ b) * 1099511628211) % 2 ^ 64

/-- 64-bit FNV-1a over a string's characters. -/
def fnvHash (s : String) : Nat :=
  s.data.foldl (fun h c => fnvStep h c.toNat) 14695981039346656037

/-- Order-independent 64-bit hash of a string map: the per-entry hashes
are combined commutatively, so the result does not depend on the
iteration order of the underlying map. -/
def mapHash (m : List (String × String)) : Nat :=
  (m.map (fun kv => fnvHash (kv.1 ++ "\x1d" ++ kv.2))).sum % 2 ^ 64

/-- The canonical serialization of a target's scalar fields. -/
def scalarBlob (t : PodTarget) : String :=
  t.tuid ++ "\x1e" ++ t.Address ++ "\x1e" ++ t.Namespace ++ "\x1e" ++
    t.Name ++ "\x1e" ++ t.NodeName ++ "\x1e" ++ t.PodIP ++ "\x1e" ++
    t.ControllerName ++ "\x1e" ++ t.ControllerKind ++ "\x1e" ++
    t.ContName ++ "\x1e" ++ t.Image ++ "\x1e" ++ t.Port ++ "\x1e" ++
    t.PortName ++ "\x1e" ++ t.PortProtocol

/-- Hash contribution of the optional environment mapping; `none` (no
environment, the normal form of an empty resolution) hashes to zero. -/
def envHash : Option (List (String × String)) → Nat
  | none => 0
  | some e => 1 + mapHash e

/-- Modelled from the spec (missing hash implementation behind
`mustCalcHash`): a 64-bit content hash that is a pure function of every
typed field of the target — scalar fields plus the annotation, label and
environment maps, the maps hashed order-independently. The tag set of
the embedded `model.Base` and the stored `hash` field are excluded: the
test corpus computes expected hashes before the discovery tags are
merged (`preparePodGroup`) as well as after (`preparePodGroupWithEnv`),
and both must equal the hash the discoverer stores, which is possible
only if the tag set does not contribute. -/
def calcHash (t : PodTarget) : Nat :=
  (fnvHash (scalarBlob t) + 3 * mapHash t.Annotations + 5 * mapHash t.Labels +
    7 * envHash t.Env) % 2 ^ 64

/-- Modelled from the spec: the discovery-source tag set merged onto
every emitted pod target (`discoveryTags`). -/
def discoveryTags : List String := ["k8s"]

/-- Modelled from the spec (missing `pod.go` target builder): build the
target for one container port of a pod — TUID, joined address, pod and
container metadata, owner controller, resolved environment (an empty
mapping normalizes to `none`); the content hash is computed over the
finished fields, and the discovery tags are merged afterwards. -/
def buildTarget (cms : List ConfigMap) (secrets : List Secret) (pod : Pod)
    (c : Container) (p : ContainerPort) : PodTarget :=
  let env := resolveEnv cms secrets pod.nsName c
  let ctrl := findController pod.ownerReferences
  let portNum := toString p.containerPort
  let t : PodTarget :=
    { tags := []
      hash := 0
      tuid := podTUIDWithPort pod c p
      Address := joinHostPort pod.podIP portNum
      Namespace := pod.nsName
      Name := pod.name
      Annotations := pod.annotations
      Labels := pod.labels
      NodeName := pod.nodeName
      PodIP := pod.podIP
      ControllerName := ctrl.1
      ControllerKind := ctrl.2
      ContName := c.name
      Image := c.image
      Env := if env.isEmpty then none else some env
      Port := portNum
      PortName := p.name
      PortProtocol := p.protocol }
  let t := { t with hash := calcHash t }
  { t with tags := discoveryTags }

/-- Modelled from the spec: for every container in declaration order,
for every declared port in declaration order, emit one target. -/
def buildTargets (cms : List ConfigMap) (secrets : List Secret) (pod : Pod) :
    List PodTarget :=
  pod.containers.flatMap (fun c => c.ports.map (buildTarget cms secrets pod c))

/-- A target group: all targets of one pod under its source key
(`podGroup`). -/
structure PodGroup where
  source : String
  targets : List PodTarget
deriving DecidableEq, Repr

/-- Modelled from the spec (missing `pod.go` group assembler): always
exactly one group per pod; a pod with empty `PodIP` or no containers
yields the empty group for its source, and containers without ports
contribute no targets. Total: there is no error case. -/
def buildGroup (cms : List ConfigMap) (secrets : List Secret) (pod : Pod) :
    PodGroup :=
  if pod.podIP = "" || pod.containers.isEmpty then
    { source := podSource pod, targets := [] }
  else
    { source := podSource pod, targets := buildTargets cms secrets pod }

/-- A pod watch event delivered by the pod cache adapter. -/
inductive PodEvent where
  | add (p : Pod)
  | update (p : Pod)
  | delete (p : Pod)
deriving DecidableEq, Repr

/-- Modelled from the spec (missing `pod.go` event handlers): add and
update rebuild the pod's group; delete emits the empty group for the
pod's identity without rebuilding targets. -/
def handleEvent (cms : List ConfigMap) (secrets : List Secret) :
    PodEvent → PodGroup
  | .add p => buildGroup cms secrets p
  | .update p => buildGroup cms secrets p
  | .delete p => { source := podSource p, targets := [] }

/-- Modelled from the spec: while running, the discoverer emits one
group per observed pod event, in observation order, with no reordering
or coalescing. -/
def runEvents (cms : List ConfigMap) (secrets : List Secret)
    (evs : List PodEvent) : List PodGroup :=
  evs.map (handleEvent cms secrets)

/-- An opaque-to-the-discoverer cache adapter reference
(`cache.SharedInformer`); only its presence matters at construction. -/
structure SharedInformer where
  id : Nat
deriving DecidableEq, Repr

/-- A constructed pod discoverer holding its three cache adapters. -/
structure PodDiscoverer where
  podInf : SharedInformer
  cmapInf : SharedInformer
  secretInf : SharedInformer
deriving DecidableEq, Repr

/-- The outcome of constructing the discoverer: an immediate fatal stop,
or a constructed discoverer. There is no returned-error case. -/
inductive NewPodResult where
  | fatal
  | ok (d : PodDiscoverer)
deriving DecidableEq, Repr

/-- Modelled from the spec (missing `pod.go` `NewPod`): construction
fails fast — an immediate fatal stop, not a returned error — when any of
the three cache adapter references is absent, and otherwise yields the
discoverer holding all three. The test `TestNewPod` pins this down:
`NewPod(nil, nil, nil)` panics, valid informers yield a `*Pod`. -/
def NewPod : Option SharedInformer → Option SharedInformer →
    Option SharedInformer → NewPodResult
  | some p, some c, some s => .ok ⟨p, c, s⟩
  | _, _, _ => .fatal

/-- The single container of the httpd test pod. -/
def httpdContainer : Container :=
  { name := "httpd", image := "httpd"
    ports := [⟨"http", "TCP", 80⟩, ⟨"https", "TCP", 443⟩]
    env := [], envFrom := [] }

/-- The first declared port of the httpd container: name `http`,
protocol `TCP`, port 80. -/
def httpdPort80 : ContainerPort := ⟨"http", "TCP", 80⟩

/-- Both branches of the group assembler key the group by `podSource`. -/
theorem buildGroup_source (cms : List ConfigMap) (secrets : List Secret)
    (pod : Pod) : (buildGroup cms secrets pod).source = podSource pod := by
  unfold buildGroup
  split <;> rfl

/-- If every container of a list declares no port, flat-mapping targets
over it yields no target. -/
theorem flatMap_ports_nil {α : Type} (f : Container → ContainerPort → α) :
    ∀ (l : List Container), (∀ c ∈ l, c.ports = []) →
      l.flatMap (fun c => (c.ports.map (f c))) = [] := by
  intro l
  induction l with
  | nil => intro _; rfl
  | cons c t ih =>
    intro h
    have hc : c.ports = [] := h c (List.mem_cons_self c t)
    have ht := ih (fun x hx => h x (List.mem_cons_of_mem c hx))
    simp [List.flatMap_cons, hc, ht]

/-- C1 counterexample: the group produced for the pre-existing httpd pod
of scenario A does not have source `"pod(default/httpd-dd95c4d68-5bkwl)"`
(it carries the `sd:k8s:` prefix, per `TestPodGroup_Source`). -/
theorem c1_source_counterexample :
    (buildGroup [] [] httpdPod).source ≠ "pod(default/httpd-dd95c4d68-5bkwl)" := by
  decide

/-- C1 (amended): for every pod the produced Group has source
`"sd:k8s:pod(<namespace>/<name>)"` built from the pod's namespace and
name; in particular the groups for the two pre-existing pods of
scenario A have sources `"sd:k8s:pod(default/httpd-dd95c4d68-5bkwl)"`
and `"sd:k8s:pod(default/nginx-7cfd77469b-q6kxj)"`. -/
theorem c1_source_amended :
    (∀ (cms : List ConfigMap) (secrets : List Secret) (pod : Pod),
      (buildGroup cms secrets pod).source =
        "sd:k8s:pod(" ++ pod.nsName ++ "/" ++ pod.name ++ ")") ∧
    (buildGroup [] [] httpdPod).source = "sd:k8s:pod(default/httpd-dd95c4d68-5bkwl)" ∧
    (buildGroup [] [] nginxPod).source = "sd:k8s:pod(default/nginx-7cfd77469b-q6kxj)" :=
  ⟨fun cms secrets pod => buildGroup_source cms secrets pod, by decide, by decide⟩

/-- C2 counterexample: the httpd container's port 80 declares protocol
`"TCP"`, but its TUID is `"default_httpd-dd95c4d68-5bkwl_httpd_tcp_80"`,
not the TUID formed with the declared protocol string taken verbatim
(`..._TCP_80`), per `TestPodTarget_TUID`. -/
theorem c2_tuid_counterexample :
    httpdPort80.protocol = "TCP" ∧
    podTUIDWithPort httpdPod httpdContainer httpdPort80 =
      "default_httpd-dd95c4d68-5bkwl_httpd_tcp_80" ∧
    podTUIDWithPort httpdPod httpdContainer httpdPort80 ≠
      "default_httpd-dd95c4d68-5bkwl_httpd_TCP_80" := by
  refine ⟨rfl, by decide, by decide⟩

/-- C2 (amended): every target's TUID is
`{namespace}_{podName}_{containerName}_{protocol}_{port}` with the
protocol component lower-cased (not verbatim); scenario A yields the
four expected TUIDs in order. -/
theorem c2_tuid_amended :
    (∀ (cms : List ConfigMap) (secrets : List Secret) (pod : Pod)
      (c : Container) (p : ContainerPort),
      (buildTarget cms secrets pod c p).tuid =
        pod.nsName ++ "_" ++ pod.name ++ "_" ++ c.name ++ "_" ++
          lowerString p.protocol ++ "_" ++ toString p.containerPort) ∧
    (buildTargets [] [] httpdPod).map (·.tuid) =
      ["default_httpd-dd95c4d68-5bkwl_httpd_tcp_80",
       "default_httpd-dd95c4d68-5bkwl_httpd_tcp_443"] ∧
    (buildTargets [] [] nginxPod).map (·.tuid) =
      ["default_nginx-7cfd77469b-q6kxj_nginx_tcp_80",
       "default_nginx-7cfd77469b-q6kxj_nginx_tcp_443"] :=
  ⟨fun _ _ _ _ _ => rfl, by decide, by decide⟩

/-- C4: a pod with empty `PodIP`, or with zero containers, or whose
containers all declare zero ports, yields the Group with the pod's usual
source key and zero targets. The group assembler is a total function, so
no error is possible. -/
theorem c4_empty_group (cms : List ConfigMap) (secrets : List Secret)
    (pod : Pod)
    (h : pod.podIP = "" ∨ pod.containers = [] ∨ ∀ c ∈ pod.containers, c.ports = []) :
    buildGroup cms secrets pod = { source := podSource pod, targets := [] } := by
  rcases h with h | h | h
  · unfold buildGroup
    simp [h]
  · unfold buildGroup
    simp [h]
  · unfold buildGroup
    split
    · rfl
    · have : buildTargets cms secrets pod = [] :=
        flatMap_ports_nil (fun c p => buildTarget cms secrets pod c p)
          pod.containers h
      rw [this]

/-- Witness for C4 at the scenario of `TestPod_Discover`
"ADD: pods with empty PodIP". -/
theorem c4_empty_group_witness :
    buildGroup [] [] { httpdPod with podIP := "" } =
      { source := podSource { httpdPod with podIP := "" }, targets := [] } :=
  c4_empty_group [] [] { httpdPod with podIP := "" } (Or.inl rfl)

/-- C6: constructing the pod discoverer with any of the three cache
adapters absent is an immediate fatal stop — there is no returned-error
outcome and no silently constructed discoverer — while construction with
all three present yields the discoverer holding them. -/
theorem c6_new_pod :
    (∀ pi ci si : Option SharedInformer,
      pi = none ∨ ci = none ∨ si = none → NewPod pi ci si = .fatal) ∧
    (∀ p c s : SharedInformer, NewPod (some p) (some c) (some s) = .ok ⟨p, c, s⟩) := by
  constructor
  · intro pi ci si h
    rcases h with h | h | h <;> subst h
    · cases ci <;> cases si <;> rfl
    · cases pi <;> cases si <;> rfl
    · cases pi <;> cases ci <;> rfl
  · intro p c s
    rfl

/-- Witness for C6: absent adapters are fatal, three concrete adapters
construct the discoverer. -/
theorem c6_new_pod_witness :
    NewPod none none none = .fatal ∧
    NewPod (some ⟨0⟩) (some ⟨1⟩) (some ⟨2⟩) = .ok ⟨⟨0⟩, ⟨1⟩, ⟨2⟩⟩ :=
  ⟨c6_new_pod.1 none none none (Or.inl rfl), c6_new_pod.2 ⟨0⟩ ⟨1⟩ ⟨2⟩⟩

/-- C5: when an add event for a pod is observed before a delete event
for the same pod identity, the emitted stream contains, at the add's
position, a group for that pod and, at the later delete's position, a
group whose source equals that group's source and which has zero
targets. Groups are emitted strictly in observation order. -/
theorem c5_delete_retraction (cms : List ConfigMap) (secrets : List Secret)
    (evs : List PodEvent) (i j : Nat) (p q : Pod)
    (hij : i < j)
    (hi : evs[i]? = some (.add p))
    (hj : evs[j]? = some (.delete q))
    (hqns : q.nsName = p.nsName) (hqn : q.name = p.name) :
    ∃ g, (runEvents cms secrets evs)[i]? = some g ∧
      g.source = podSource p ∧
      (runEvents cms secrets evs)[j]? = some { source := g.source, targets := [] } := by
  refine ⟨buildGroup cms secrets p, ?_, buildGroup_source cms secrets p, ?_⟩
  · unfold runEvents
    rw [List.getElem?_map, hi]
    rfl
  · unfold runEvents
    rw [List.getElem?_map, hj]
    have hsrc : podSource q = podSource p := by
      unfold podSource
      rw [hqns, hqn]
    simp [handleEvent, hsrc, buildGroup_source]

/-- Witness for C5 on the two-event stream add-then-delete of the httpd
pod (the `TestPod_Discover` "DELETE: remove pods after sync" shape). -/
theorem c5_delete_retraction_witness :
    ∃ g, (runEvents [] [] [.add httpdPod, .delete httpdPod])[0]? = some g ∧
      g.source = podSource httpdPod ∧
      (runEvents [] [] [.add httpdPod, .delete httpdPod])[1]? =
        some { source := g.source, targets := [] } :=
  c5_delete_retraction [] [] [.add httpdPod, .delete httpdPod] 0 1
    httpdPod httpdPod (by decide) rfl rfl rfl rfl

/-- C7: the target hash is a deterministic function of the target's
field values — it is invariant under the representation order of the
environment (and annotation) mappings, so rebuilding an unchanged pod
yields identical hashes regardless of map iteration order — and changing
only the environment of an otherwise-identical target, from no
environment to `{key1: value1}`, changes the hash (the scenario of
`preparePodGroupWithEnv`). -/
theorem c7_hash_determinism :
    (∀ (t : PodTarget) (e1 e2 : List (String × String)), e1.Perm e2 →
      calcHash { t with Env := some e1 } = calcHash { t with Env := some e2 }) ∧
    (∀ (t : PodTarget) (a1 a2 : List (String × String)), a1.Perm a2 →
      calcHash { t with Annotations := a1 } = calcHash { t with Annotations := a2 }) ∧
    calcHash (buildTarget [] [] httpdPod httpdContainer httpdPort80) ≠
      calcHash { buildTarget [] [] httpdPod httpdContainer httpdPort80 with
                   Env := some [("key1", "value1")] } := by
  refine ⟨?_, ?_, by decide⟩
  · intro t e1 e2 hp
    have hs : mapHash e1 = mapHash e2 := by
      unfold mapHash
      rw [(hp.map _).sum_eq]
    unfold calcHash
    simp only [envHash, hs]
    rfl
  · intro t a1 a2 hp
    have hs : mapHash a1 = mapHash a2 := by
      unfold mapHash
      rw [(hp.map _).sum_eq]
    unfold calcHash
    simp only [hs]
    rfl

/-- Witness for C7: hashes agree across a permuted two-entry environment
and annotation mapping at a concrete target. -/
theorem c7_hash_determinism_witness :
    calcHash { buildTarget [] [] httpdPod httpdContainer httpdPort80 with
                 Env := some [("a", "1"), ("b", "2")] } =
      calcHash { buildTarget [] [] httpdPod httpdContainer httpdPort80 with
                   Env := some [("b", "2"), ("a", "1")] } ∧
    calcHash { buildTarget [] [] httpdPod httpdContainer httpdPort80 with
                 Annotations := [("a", "1"), ("b", "2")] } =
      calcHash { buildTarget [] [] httpdPod httpdContainer httpdPort80 with
                   Annotations := [("b", "2"), ("a", "1")] } :=
  ⟨c7_hash_determinism.1 _ [("a", "1"), ("b", "2")] [("b", "2"), ("a", "1")] (by decide),
   c7_hash_determinism.2.1 _ [("a", "1"), ("b", "2")] [("b", "2"), ("a", "1")] (by decide)⟩

/-- C9 counterexample: the emitted target for httpd port 80 carries the
discovery tag set, and the target identical in all typed fields but with
an empty tag set has the same content hash — tag sets do not participate
in the hash. In the test corpus the expected hashes are computed before
the discovery tags are merged in `preparePodGroup` but after the merge in
`preparePodGroupWithEnv`, and both match the discoverer's stored hash,
which is only possible when the tag set does not contribute. -/
theorem c9_tags_counterexample :
    (buildTarget [] [] httpdPod httpdContainer httpdPort80).tags ≠
      ({ buildTarget [] [] httpdPod httpdContainer httpdPort80 with tags := [] } :
        PodTarget).tags ∧
    calcHash (buildTarget [] [] httpdPod httpdContainer httpdPort80) =
      calcHash { buildTarget [] [] httpdPod httpdContainer httpdPort80 with tags := [] } := by
  exact ⟨by decide, rfl⟩

/-- C9 (amended): the generic capability-tag set attached to a target
(the discovery-source tag merged onto every emitted pod target) does
not participate in the target's 64-bit content hash: the hash is a
function of the typed fields only, every emitted target carries the
discovery tags, and its stored hash equals the content hash of its
typed fields. -/
theorem c9_tags_amended :
    (∀ (t : PodTarget) (ts : List String),
      calcHash { t with tags := ts } = calcHash t) ∧
    (∀ (cms : List ConfigMap) (secrets : List Secret) (pod : Pod)
      (c : Container) (p : ContainerPort),
      (buildTarget cms secrets pod c p).tags = discoveryTags ∧
      (buildTarget cms secrets pod c p).hash =
        calcHash (buildTarget cms secrets pod c p)) :=
  ⟨fun _ _ => rfl, fun _ _ _ _ _ => ⟨rfl, rfl⟩⟩

/-- C10: every target's address joins the pod IP and the decimal port
with host-port joining semantics (Go `net.JoinHostPort`): a host without
a colon — every IPv4 address — yields `ip:port`, a host with a colon —
every IPv6 literal — is bracketed as `[ip]:port`; concretely
`172.17.0.1` port 80 gives `"172.17.0.1:80"` and `fd00::1` port 80 gives
`"[fd00::1]:80"`. -/
theorem c10_address_join :
    (∀ (cms : List ConfigMap) (secrets : List Secret) (pod : Pod)
      (c : Container) (p : ContainerPort),
      (buildTarget cms secrets pod c p).Address =
        joinHostPort pod.podIP (toString p.containerPort)) ∧
    (∀ host port : String, host.data.contains ':' = false →
      joinHostPort host port = host ++ ":" ++ port) ∧
    (∀ host port : String, host.data.contains ':' = true →
      joinHostPort host port = "[" ++ host ++ "]:" ++ port) ∧
    (buildTarget [] [] httpdPod httpdContainer httpdPort80).Address = "172.17.0.1:80" ∧
    (buildTarget [] [] { httpdPod with podIP := "fd00::1" } httpdContainer
      httpdPort80).Address = "[fd00::1]:80" := by
  refine ⟨fun _ _ _ _ _ => rfl, ?_, ?_, by decide, by decide⟩
  · intro host port h
    unfold joinHostPort
    rw [h]
    rfl
  · intro host port h
    unfold joinHostPort
    rw [h]
    rfl

/-- Witness for C10: the joining rules applied at the concrete IPv4 and
IPv6 pod IPs of the model. -/
theorem c10_address_join_witness :
    joinHostPort ("172.17.0.1") ("80") = "172.17.0.1" ++ ":" ++ "80" ∧
    joinHostPort ("fd00::1") ("80") = "[" ++ "fd00::1" ++ "]:" ++ "80" :=
  ⟨c10_address_join.2.1 ("172.17.0.1") ("80") (by decide),
   c10_address_join.2.2.1 ("fd00::1") ("80") (by decide)⟩

/-- Setting a key binds it: the map set at `k` looks up `k` to the new
value, whatever was bound before. -/
theorem lookup_setKey_self (m : List (String × String)) (k v : String) :
    (setKey m k v).lookup k = some v := by
  induction m with
  | nil => simp [setKey, List.lookup]
  | cons kv t ih =>
    obtain ⟨a, b⟩ := kv
    unfold setKey
    by_cases h : a = k
    · simp [h, List.lookup]
    · have hk : (k == a) = false := by
        simp [BEq.beq]
        exact fun he => h he.symm
      simp [h, List.lookup, hk, ih]

/-- Setting a key leaves every other key's binding unchanged. -/
theorem lookup_setKey_other (m : List (String × String)) (k v j : String)
    (hjk : j ≠ k) : (setKey m k v).lookup j = m.lookup j := by
  induction m with
  | nil =>
    have hk : (j == k) = false := by simpa using hjk
    simp [setKey, List.lookup, hk]
  | cons kv t ih =>
    obtain ⟨a, b⟩ := kv
    unfold setKey
    by_cases h : a = k
    · subst h
      have hk : (j == a) = false := by simpa using hjk
      simp [List.lookup, hk]
    · rw [if_neg h]
      by_cases hja : j = a
      · subst hja
        simp [List.lookup]
      · have hf : (j == a) = false := by simpa using hja
        simp [List.lookup, hf, ih]

/-- The two config maps of the C8 scenario: `cm-a` binds `key1 ↦ a1` and
`key2 ↦ a2`; `cm-b`, imported after it, binds `key2 ↦ b2`. -/
def c8ConfigMaps : List ConfigMap :=
  [⟨"default", "cm-a", [("key1", "a1"), ("key2", "a2")]⟩,
   ⟨"default", "cm-b", [("key2", "b2")]⟩]

/-- A container importing both config maps via `EnvFrom` and then
declaring a literal `Env` entry for `key1` that references a key of a
secret that does not exist in the cache. -/
def c8Container : Container :=
  { name := "c", image := "i", ports := []
    env := [⟨"key1", .secretKeyRef ("missing-secret") ("key1")⟩]
    envFrom := [.configMapRef ("cm-a"), .configMapRef ("cm-b")] }

/-- The same container with the literal `Env` entry carrying a direct
value instead. -/
def c8ContainerValue : Container :=
  { name := "c", image := "i", ports := []
    env := [⟨"key1", .value ("lit")⟩]
    envFrom := [.configMapRef ("cm-a"), .configMapRef ("cm-b")] }

/-- C8: environment resolution processes `EnvFrom` imports first and
literal `Env` entries second; each set of a key overrides the prior
binding of that key and leaves all other keys unchanged (the two
`setKey` laws); a later `EnvFrom` import overrides keys shared with an
earlier one (`key2` ends at `b2`, not `a2`); a literal `Env` entry whose
secret reference is missing leaves the value imported by `EnvFrom`
untouched (`key1` stays `a1`); a literal direct value does override it
(`key1` becomes `lit`); and resolution is a total function, so it never
fails. -/
theorem c8_env_resolution :
    (∀ (m : List (String × String)) (k v : String),
      (setKey m k v).lookup k = some v) ∧
    (∀ (m : List (String × String)) (k v j : String), j ≠ k →
      (setKey m k v).lookup j = m.lookup j) ∧
    (∀ (cms : List ConfigMap) (secrets : List Secret) (ns : String)
      (c : Container),
      resolveEnv cms secrets ns c =
        c.env.foldl (applyEnvVar cms secrets ns)
          (c.envFrom.foldl (applyEnvFrom cms secrets ns) [])) ∧
    resolveEnv c8ConfigMaps [] "default" c8Container =
      [("key1", "a1"), ("key2", "b2")] ∧
    resolveEnv c8ConfigMaps [] "default" c8ContainerValue =
      [("key1", "lit"), ("key2", "b2")] :=
  ⟨lookup_setKey_self, lookup_setKey_other, fun _ _ _ _ => rfl,
   by decide, by decide⟩

/-- Witness for C8: the override laws applied at a concrete map, key and
distinct other key. -/
theorem c8_env_resolution_witness :
    (setKey [("key1", "a1")] ("key1") ("b1")).lookup ("key1") = some ("b1") ∧
    (setKey [("key1", "a1")] ("key2") ("b2")).lookup ("key1") = some ("a1") :=
  ⟨c8_env_resolution.1 [("key1", "a1")] ("key1") ("b1"),
   c8_env_resolution.2.1 [("key1", "a1")] ("key2") ("b2") ("key1") (by decide)⟩

/-- The (container name, protocol component, port component) key of one
target: the TUID is the pod's namespace and name followed by this key,
joined with underscores. -/
def portKey (c : Container) (p : ContainerPort) : String × String × String :=
  (c.name, lowerString p.protocol, toString p.containerPort)

/-- All port keys of a pod, containers and ports in declaration order. -/
def podKeys (pod : Pod) : List (String × String × String) :=
  pod.containers.flatMap (fun c => c.ports.map (portKey c))

/-- Formatting one key as its TUID string. -/
def tuidKey (pod : Pod) (k : String × String × String) : String :=
  pod.nsName ++ "_" ++ pod.name ++ "_" ++ k.1 ++ "_" ++ k.2.1 ++ "_" ++ k.2.2

theorem underscore_data : ("_" : String).data = ['_'] := rfl

/-- Splitting at an underscore is unambiguous when neither left part
contains an underscore. -/
theorem splitUnderscore :
    ∀ (a c b d : List Char), '_' ∉ a → '_' ∉ c →
      a ++ '_' :: b = c ++ '_' :: d → a = c ∧ b = d := by
  intro a
  induction a with
  | nil =>
    intro c b d _ hc h
    cases c with
    | nil =>
      rw [List.nil_append, List.nil_append] at h
      injection h with _ h2
      exact ⟨rfl, h2⟩
    | cons y ys =>
      rw [List.nil_append, List.cons_append] at h
      injection h with h1 _
      exact absurd (by rw [h1]; exact List.mem_cons_self y ys) hc
  | cons x xs ih =>
    intro c b d ha hc h
    cases c with
    | nil =>
      rw [List.cons_append, List.nil_append] at h
      injection h with h1 _
      exact absurd (by rw [← h1]; exact List.mem_cons_self x xs) ha
    | cons y ys =>
      rw [List.cons_append, List.cons_append] at h
      injection h with h1 h2
      obtain ⟨he, hb⟩ := ih ys b d
        (fun hm => ha (List.mem_cons_of_mem x hm))
        (fun hm => hc (List.mem_cons_of_mem y hm)) h2
      subst h1
      rw [he]
      exact ⟨rfl, hb⟩

/-- The TUID format is injective on keys whose container-name and
protocol components contain no underscore. -/
theorem tuidKey_inj (pod : Pod) (x y : String × String × String)
    (hx1 : '_' ∉ x.1.data) (hx2 : '_' ∉ x.2.1.data)
    (hy1 : '_' ∉ y.1.data) (hy2 : '_' ∉ y.2.1.data)
    (h : tuidKey pod x = tuidKey pod y) : x = y := by
  obtain ⟨x1, x2, x3⟩ := x
  obtain ⟨y1, y2, y3⟩ := y
  simp only at hx1 hx2 hy1 hy2
  have hd := congrArg String.data h
  unfold tuidKey at hd
  simp only [String.data_append, underscore_data, List.append_assoc,
    List.singleton_append] at hd
  have h1 := List.append_cancel_left hd
  injection h1 with _ h2
  have h3 := List.append_cancel_left h2
  injection h3 with _ h4
  obtain ⟨e1, e2⟩ := splitUnderscore _ _ _ _ hx1 hy1 h4
  obtain ⟨e3, e4⟩ := splitUnderscore _ _ _ _ hx2 hy2 e2
  rw [String.ext e1, String.ext e3, String.ext e4]

/-- The first component of every key contributed by a container list is
one of its container names. -/
theorem mem_keys_name (l : List Container) (x : String × String × String)
    (hx : x ∈ l.flatMap (fun c => c.ports.map (portKey c))) :
    x.1 ∈ l.map (·.name) := by
  rw [List.mem_flatMap] at hx
  obtain ⟨c, hc, hx⟩ := hx
  rw [List.mem_map] at hx
  obtain ⟨p, _, he⟩ := hx
  rw [List.mem_map]
  exact ⟨c, hc, by rw [← he]; rfl⟩

/-- With pairwise-distinct container names and, per container,
pairwise-distinct (protocol, port) components, the key list of a pod has
no duplicate. -/
theorem keys_nodup :
    ∀ (l : List Container), (l.map (·.name)).Nodup →
      (∀ c ∈ l,
        (c.ports.map (fun p => (lowerString p.protocol, toString p.containerPort))).Nodup) →
      (l.flatMap (fun c => c.ports.map (portKey c))).Nodup := by
  intro l
  induction l with
  | nil => intro _ _; exact List.nodup_nil
  | cons c t ih =>
    intro hn hp
    rw [List.map_cons, List.nodup_cons] at hn
    rw [List.flatMap_cons, List.nodup_append]
    refine ⟨?_, ih hn.2 (fun c' hc' => hp c' (List.mem_cons_of_mem c hc')), ?_⟩
    · have h1 : c.ports.map (portKey c) =
          (c.ports.map (fun p => (lowerString p.protocol, toString p.containerPort))).map
            (fun pr => (c.name, pr)) := by
        rw [List.map_map]
        rfl
      rw [h1]
      refine (hp c (List.mem_cons_self c t)).map ?_
      exact fun a b hab => congrArg Prod.snd hab
    · intro x hxin hxrest
      have h1 : x.1 = c.name := by
        rw [List.mem_map] at hxin
        obtain ⟨p, _, he⟩ := hxin
        subst he
        rfl
      have h2 := mem_keys_name t x hxrest
      rw [h1] at h2
      exact hn.1 h2

/-- The TUIDs of a pod's targets are exactly its keys formatted as TUID
strings, in order. -/
theorem map_tuid (cms : List ConfigMap) (secrets : List Secret) (pod : Pod) :
    (buildTargets cms secrets pod).map (·.tuid) =
      (podKeys pod).map (tuidKey pod) := by
  unfold buildTargets podKeys
  rw [List.map_flatMap, List.map_flatMap]
  simp only [List.map_map]
  rfl

/-- C3: for a pod with non-empty `PodIP` and at least one declared
container port — whose container names are pairwise distinct and free of
underscores, and whose per-container (protocol, port) components are
pairwise distinct, as the Kubernetes API guarantees for valid pods —
building the pod's group yields exactly the sum over containers of their
declared-port counts, with pairwise-distinct TUIDs, emitted with
containers in declaration order and ports within a container in
declaration order. -/
theorem c3_build_targets (cms : List ConfigMap) (secrets : List Secret)
    (pod : Pod)
    (hip : pod.podIP ≠ "")
    (hcount : 0 < (pod.containers.map (fun c => c.ports.length)).sum)
    (hnames : (pod.containers.map (·.name)).Nodup)
    (hchar : ∀ c ∈ pod.containers, '_' ∉ c.name.data ∧
      ∀ p ∈ c.ports, '_' ∉ (lowerString p.protocol).data)
    (hpairs : ∀ c ∈ pod.containers,
      (c.ports.map (fun p => (lowerString p.protocol, toString p.containerPort))).Nodup) :
    (buildGroup cms secrets pod).targets.length =
      (pod.containers.map (fun c => c.ports.length)).sum ∧
    ((buildGroup cms secrets pod).targets.map (·.tuid)).Nodup ∧
    (buildGroup cms secrets pod).targets.map (fun t => (t.ContName, t.PortProtocol, t.Port)) =
      pod.containers.flatMap (fun c =>
        c.ports.map (fun p => (c.name, p.protocol, toString p.containerPort))) := by
  have hne : pod.containers.isEmpty = false := by
    cases hcl : pod.containers with
    | nil => rw [hcl] at hcount; simp at hcount
    | cons a t => rfl
  have hg : (buildGroup cms secrets pod).targets = buildTargets cms secrets pod := by
    unfold buildGroup
    simp [hip, hne]
  refine ⟨?_, ?_, ?_⟩
  · rw [hg]
    unfold buildTargets
    rw [List.length_flatMap]
    simp only [Function.comp_def, List.length_map]
  · rw [hg, map_tuid]
    have hu : ∀ x ∈ podKeys pod, '_' ∉ x.1.data ∧ '_' ∉ x.2.1.data := by
      intro x hx
      unfold podKeys at hx
      rw [List.mem_flatMap] at hx
      obtain ⟨c, hc, hx⟩ := hx
      rw [List.mem_map] at hx
      obtain ⟨p, hpp, he⟩ := hx
      obtain ⟨h1, h2⟩ := hchar c hc
      rw [← he]
      exact ⟨h1, h2 p hpp⟩
    refine List.Nodup.map_on ?_ (keys_nodup pod.containers hnames hpairs)
    intro x hx y hy he
    exact tuidKey_inj pod x y (hu x hx).1 (hu x hx).2 (hu y hy).1 (hu y hy).2 he
  · rw [hg]
    unfold buildTargets
    rw [List.map_flatMap]
    simp only [List.map_map]
    rfl

/-- Witness for C3 at the httpd pod of scenario A: one container, two
ports, hence two targets with distinct TUIDs, in declaration order. -/
theorem c3_build_targets_witness :
    (buildGroup [] [] httpdPod).targets.length =
      (httpdPod.containers.map (fun c => c.ports.length)).sum ∧
    ((buildGroup [] [] httpdPod).targets.map (·.tuid)).Nodup ∧
    (buildGroup [] [] httpdPod).targets.map (fun t => (t.ContName, t.PortProtocol, t.Port)) =
      httpdPod.containers.flatMap (fun c =>
        c.ports.map (fun p => (c.name, p.protocol, toString p.containerPort))) :=
  c3_build_targets [] [] httpdPod (by decide) (by decide) (by decide)
    (by decide) (by decide)

end PodSD
